import Mathlib

/-!
Verification of the TISTA sparse-recovery program (src/tista.py) against its
natural-language specification.

The program is shallow-embedded over an arbitrary linear ordered field `K`
(exact arithmetic standing in for floating point), with the exponential
function passed as an abstract parameter `E : K → K` (the code's `torch.exp`).
Matrices are total functions on `Fin` index types, and the fallible parts of
the code (indexing the `gamma` parameter vector past its length) are embedded
in `Option`.  A second, small model `EFloat` adds an explicit NaN value in
order to reason about the code's IEEE-style NaN behaviour: the `isnan`
gradient guard of the training loop and the 0/0 case of the shrinkage
function.
-/

namespace TISTA

section Defs

variable {K : Type} [LinearOrderedField K]
variable {a b c n m bsz : ℕ}

/-- Matrix product, the code's `X.mm(Y)`. -/
def matMul (X : Matrix (Fin a) (Fin b) K) (Y : Matrix (Fin b) (Fin c) K) :
    Matrix (Fin a) (Fin c) K :=
  fun i k => Finset.univ.sum (fun j => X i j * Y j k)

/-- Squared euclidean norm of row `i`, the code's `X.norm(2,1).pow(2.0)` at index `i`. -/
def rowNormSq (X : Matrix (Fin a) (Fin b) K) (i : Fin a) : K :=
  Finset.univ.sum (fun j => X i j * X i j)

/-- Lines 64-65 of tista.py: `gauss(x, var) = exp(-x*x/(2*var))`, with the
exponential abstracted as `E`. -/
def gauss (E : K → K) (x var : K) : K := E (-(x * x) / (2 * var))

/-- The denominator of line 68 of tista.py:
`(1-p)*gauss(y, tau2) + p*gauss(y, xi)`. -/
def MMSE_denom (E : K → K) (p y tau2 xi : K) : K :=
  (1 - p) * gauss E y tau2 + p * gauss E y xi

/-- Line 68 of tista.py:
`(y*alpha2/xi)*p*gauss(y, xi)/((1-p)*gauss(y, tau2) + p*gauss(y, xi))`. -/
def MMSE_shrinkage (E : K → K) (p alpha2 xi y tau2 : K) : K :=
  y * alpha2 / xi * p * gauss E y xi / MMSE_denom E p y tau2 xi

/-- Lines 70-75 of tista.py, the error variance estimator `eval_tau2` for one
batch row, whose squared residual norm `t.norm(2,1).pow(2.0)` is `normt2`.
Line 71: `v2 = (t.norm(2,1).pow(2.0) - M*sigma2)/taa`.
Line 72 reads `v2.clamp(min=1e-7)`; `Tensor.clamp` is out of place and the
returned tensor is discarded, so `v2` is used UNclamped in line 73 and the
call has no effect on the result.  It is therefore omitted here.
Line 73: `tau2 = (v2/N)*(N+(gamma*gamma-2.0*gamma)*M)+gamma*gamma*tww*sigma2/N`. -/
def eval_tau2_scalar (ndim mdim : ℕ) (sigma2 taa tww γi normt2 : K) : K :=
  let v2 := (normt2 - (mdim : K) * sigma2) / taa
  (v2 / (ndim : K)) * ((ndim : K) + (γi * γi - 2 * γi) * (mdim : K))
    + γi * γi * tww * sigma2 / (ndim : K)

/-- Modelled from the spec: the variance estimator with the clamp of `v2` at
the floor 1e-7 actually applied before use, as the spec's formula
`v2 = clamp((normt2 - M*sigma2)/taa, min=1e-7)` requires (the code's line 72
was evidently intended to do this in place). -/
def eval_tau2_scalar_clamped (ndim mdim : ℕ) (sigma2 taa tww γi normt2 : K) : K :=
  let v2 := max ((normt2 - (mdim : K) * sigma2) / taa) (1 / 10 ^ 7)
  (v2 / (ndim : K)) * ((ndim : K) + (γi * γi - 2 * γi) * (mdim : K))
    + γi * γi * tww * sigma2 / (ndim : K)

/-- The immutable data every forward pass of `TISTA_NET` reads: the abstract
exponential, the scalar configuration (`p`, `alpha2`, `xi`, `sigma2`, `taa`,
`tww`) and the matrices `At` (N by M) and `Wt` (M by N). -/
structure Config (K : Type) (n m bsz : ℕ) where
  E : K → K
  p : K
  alpha2 : K
  xi : K
  sigma2 : K
  taa : K
  tww : K
  At : Matrix (Fin n) (Fin m) K
  Wt : Matrix (Fin m) (Fin n) K

/-- Lines 70-75 of tista.py at the tensor level: the per-row scalar
`eval_tau2_scalar` broadcast across the N columns
(`tau2.expand(N, batch_size).t()`). -/
def Config.eval_tau2 (cfg : Config K n m bsz) (g : K)
    (t : Matrix (Fin bsz) (Fin m) K) : Matrix (Fin bsz) (Fin n) K :=
  fun i _ => eval_tau2_scalar n m cfg.sigma2 cfg.taa cfg.tww g (rowNormSq t i)

/-- The body of the loop of lines 79-83 of tista.py for one layer with gain
`g = gamma[i]`:
`t = y - s.mm(At)`; `tau2 = eval_tau2(t, i)`;
`r = s + t.mm(Wt)*gamma[i]`; `s = MMSE_shrinkage(r, tau2)`. -/
def Config.step (cfg : Config K n m bsz) (g : K)
    (y : Matrix (Fin bsz) (Fin m) K) (s : Matrix (Fin bsz) (Fin n) K) :
    Matrix (Fin bsz) (Fin n) K :=
  let t : Matrix (Fin bsz) (Fin m) K := fun i j => y i j - matMul s cfg.At i j
  let tau2 := cfg.eval_tau2 g t
  let r : Matrix (Fin bsz) (Fin n) K := fun i j => s i j + matMul t cfg.Wt i j * g
  fun i j => MMSE_shrinkage cfg.E cfg.p cfg.alpha2 cfg.xi (r i j) (tau2 i j)

/-- The loop of lines 79-83 of tista.py, starting at layer index `i` with
`itr` iterations still to run.  Reading `gamma[i]` past the end of the
parameter vector is the code's IndexError, embedded as `none`. -/
def Config.forwardLoop (cfg : Config K n m bsz) (gamma : List K)
    (y : Matrix (Fin bsz) (Fin m) K) :
    ℕ → ℕ → Matrix (Fin bsz) (Fin n) K → Option (Matrix (Fin bsz) (Fin n) K)
  | _, 0, s => some s
  | i, Nat.succ itr, s =>
    match gamma[i]? with
    | none => none
    | some g => cfg.forwardLoop gamma y (i + 1) itr (cfg.step g y s)

/-- Lines 77-84 of tista.py, `TISTA_NET.forward(x, s, max_itr)`.  The noise
tensor drawn on line 78 is passed in explicitly:
`y = x.mm(At) + noise`, then the layer loop, returning the final `s`. -/
def Config.forward (cfg : Config K n m bsz) (gamma : List K)
    (x s0 : Matrix (Fin bsz) (Fin n) K) (noise : Matrix (Fin bsz) (Fin m) K)
    (max_itr : ℕ) : Option (Matrix (Fin bsz) (Fin n) K) :=
  let y : Matrix (Fin bsz) (Fin m) K := fun i j => matMul x cfg.At i j + noise i j
  cfg.forwardLoop gamma y 0 max_itr s0

/-- A concrete 1-dimensional configuration over ℚ used by the witnesses. -/
def demoConfig : Config ℚ 1 1 1 :=
  ⟨fun _ => 1, 1/2, 1, 1, 1, 1, 1, fun _ _ => 1, fun _ _ => 1⟩

/-- The code's `(y.norm(2,1).pow(2.0)).sum()`: total squared energy of a
batch of measurement rows. -/
def totalEnergy (y : Matrix (Fin bsz) (Fin m) K) : K :=
  Finset.univ.sum (fun i => rowNormSq y i)

/-- Lines 94-103 of tista.py, the SNR calibration run before training.
`draw` is the sequence of calibration batches produced by `generate_batch()`;
`snrFactor` is the precomputed `math.pow(10.0, snr/10.0)` (for the code's
`snr = 40.0` this is 10^4).  The code accumulates
`sum += (y.norm(2,1).pow(2.0)).sum()` for `y = x.mm(At)` over 100 draws, sets
`ave = sum/(100.0*batch_size)`, `sigma2 = ave/(M*10^(snr/10))` and
`xi = alpha2 + sigma2`; the pair `(sigma2, xi)` is returned. -/
def calibrate (alpha2 : K) (mdim bs : ℕ) (snrFactor : K)
    (At : Matrix (Fin n) (Fin mdim) K) (draw : ℕ → Matrix (Fin bs) (Fin n) K) :
    K × K :=
  let s := (Finset.range 100).sum (fun i => totalEnergy (matMul (draw i) At))
  let ave := s / (100 * (bs : K))
  let sigma2 := ave / ((mdim : K) * snrFactor)
  (sigma2, alpha2 + sigma2)

/-- The spec's calibration formula, written exactly as stated in section 4.2:
the average total squared energy of the noiseless measurement per batch item,
averaged over the drawn calibration batches, divided by M times 10^(SNR/10). -/
def spec_sigma2 (mdim bs : ℕ) (snrFactor : K)
    (At : Matrix (Fin n) (Fin mdim) K) (draw : ℕ → Matrix (Fin bs) (Fin n) K) : K :=
  (1 / (100 * (bs : K)) * (Finset.range 100).sum (fun i => totalEnergy (matMul (draw i) At)))
    / ((mdim : K) * snrFactor)

/-- Line 28 of tista.py: `num_generations = 15`. -/
def num_generations : ℕ := 15

/-- Line 27 of tista.py: `num_batch = 200`. -/
def num_batch : ℕ := 200

/-- Which part of a generation a forward call belongs to: a training
mini-batch (line 112) or an end-of-generation accuracy-check batch
(line 126). -/
inductive LoopPhase where
  | train : LoopPhase
  | acc : LoopPhase
deriving DecidableEq

/-- One call of `network(x, s_zero, ...)` made by `main`: the (0-indexed)
generation it happens in, its phase, its index within the phase and the
`max_itr` depth argument passed to `forward`. -/
structure FwdCall where
  gen : ℕ
  phase : LoopPhase
  idx : ℕ
  depth : ℕ
deriving DecidableEq

/-- Lines 108-126 of tista.py: the sequence of forward calls made by the
incremental training loop.  Generation `gen` runs `num_batch` training
mini-batches as `network(x, s_zero, gen+1)` (line 112) and then 10
accuracy-check batches as `network(x, s_zero, gen+1)` (line 126). -/
def mainForwardCalls : List FwdCall :=
  (List.range num_generations).flatMap (fun gen =>
    ((List.range num_batch).map (fun i => ⟨gen, LoopPhase.train, i, gen + 1⟩)) ++
    ((List.range 10).map (fun i => ⟨gen, LoopPhase.acc, i, gen + 1⟩)))

/-- An IEEE-style scalar: either NaN or a finite value represented exactly as
a rational.  Infinities are not modelled; none of the expressions reasoned
about below divides a nonzero finite value by zero. -/
inductive EFloat where
  | nan : EFloat
  | val : ℚ → EFloat
deriving DecidableEq

/-- NaN-propagating addition. -/
def efAdd : EFloat → EFloat → EFloat
  | .val x, .val y => .val (x + y)
  | _, _ => .nan

/-- NaN-propagating subtraction. -/
def efSub : EFloat → EFloat → EFloat
  | .val x, .val y => .val (x - y)
  | _, _ => .nan

/-- NaN-propagating multiplication. -/
def efMul : EFloat → EFloat → EFloat
  | .val x, .val y => .val (x * y)
  | _, _ => .nan

/-- NaN-propagating division; division by zero gives NaN, which is IEEE
behaviour for the 0/0 case (the only by-zero division arising below). -/
def efDiv : EFloat → EFloat → EFloat
  | .val x, .val y => if y = 0 then .nan else .val (x / y)
  | _, _ => .nan

instance : Add EFloat := ⟨efAdd⟩

instance : Sub EFloat := ⟨efSub⟩

instance : Mul EFloat := ⟨efMul⟩

instance : Div EFloat := ⟨efDiv⟩

/-- IEEE equality test: NaN compares unequal to everything, itself included. -/
def efEq : EFloat → EFloat → Bool
  | .val x, .val y => x == y
  | _, _ => false

/-- Lines 48-49 of tista.py: `def isnan(x): return x != x`. -/
def isnan (x : EFloat) : Bool := !(efEq x x)

/-- Line 68 of tista.py evaluated in floating-point style, with the two
already-evaluated Gaussian-density terms `gtau2 = gauss(y, tau2)` and
`gxi = gauss(y, xi)` passed in (their underflow to exactly 0 at large inputs
is floating-point behaviour, so they enter the model as inputs):
`(y*alpha2/xi)*p*gxi/((1-p)*gtau2 + p*gxi)`. -/
def MMSE_shrinkage_fp (p alpha2 xi y gtau2 gxi : EFloat) : EFloat :=
  y * alpha2 / xi * p * gxi / ((EFloat.val 1 - p) * gtau2 + p * gxi)

/-- Lines 116-120 of tista.py, the per-mini-batch update of `gamma` after the
backward pass.  The optimizer (`opt.step()`, Adam, external per the spec) is
an opaque function `optStep` of the current parameters and the gradients:
`grads = torch.stack([param.grad for param in network.parameters()])`;
`if isnan(grads).any(): continue`; `opt.step()`. -/
def trainStep (optStep : List EFloat → List EFloat → List EFloat)
    (gamma grads : List EFloat) : List EFloat :=
  if grads.any isnan then gamma else optStep gamma grads

end Defs

section Claims

variable {K : Type} [LinearOrderedField K]

/-- C7: for every finite r and every tau2 > 0, the shrinkage function is
odd-symmetric in its first argument: MMSE_shrinkage(-r, tau2) =
-MMSE_shrinkage(r, tau2). -/
theorem MMSE_shrinkage_odd (E : K → K) (p alpha2 xi r tau2 : K)
    (h : 0 < tau2) :
    MMSE_shrinkage E p alpha2 xi (-r) tau2 = -MMSE_shrinkage E p alpha2 xi r tau2 := by
  have hg : ∀ v, gauss E (-r) v = gauss E r v := by
    intro v
    simp [gauss, neg_mul_neg]
  simp [MMSE_shrinkage, MMSE_denom, hg, neg_mul, neg_div]

theorem MMSE_shrinkage_odd_witness :
    MMSE_shrinkage (fun _ => (1 : ℚ)) (1/2) 1 1 (-1) 1
      = -MMSE_shrinkage (fun _ => (1 : ℚ)) (1/2) 1 1 1 1 :=
  MMSE_shrinkage_odd (fun _ => (1 : ℚ)) (1/2) 1 1 1 1 (by norm_num)

/-- C9: for every tau2 > 0 and xi > 0, a zero input coordinate is mapped to
exactly zero: MMSE_shrinkage(0, tau2) = 0. -/
theorem MMSE_shrinkage_at_zero (E : K → K) (p alpha2 xi tau2 : K)
    (h : 0 < tau2) (hxi : 0 < xi) :
    MMSE_shrinkage E p alpha2 xi 0 tau2 = 0 := by
  simp [MMSE_shrinkage]

theorem MMSE_shrinkage_at_zero_witness :
    MMSE_shrinkage (fun _ => (1 : ℚ)) (1/2) 1 1 0 1 = 0 :=
  MMSE_shrinkage_at_zero (fun _ => (1 : ℚ)) (1/2) 1 1 1 (by norm_num) (by norm_num)

/-- C10: for every finite r, tau2 > 0, xi > 0 and 0 < p < 1, the mixture
denominator of the shrinkage function is strictly positive (and hence nonzero)
in exact real arithmetic, given that the exponential is strictly positive. -/
theorem MMSE_denom_pos (E : K → K) (p y tau2 xi : K)
    (hp : 0 < p) (hp1 : p < 1) (htau : 0 < tau2) (hxi : 0 < xi)
    (hE : ∀ z, 0 < E z) :
    0 < MMSE_denom E p y tau2 xi ∧ MMSE_denom E p y tau2 xi ≠ 0 := by
  have h1 : 0 < (1 - p) * gauss E y tau2 := mul_pos (by linarith) (hE _)
  have h2 : 0 < p * gauss E y xi := mul_pos hp (hE _)
  have hpos : 0 < MMSE_denom E p y tau2 xi := add_pos h1 h2
  exact ⟨hpos, ne_of_gt hpos⟩

theorem MMSE_denom_pos_witness :
    0 < MMSE_denom (fun _ => (1 : ℚ)) (1/2) 3 1 1 ∧
      MMSE_denom (fun _ => (1 : ℚ)) (1/2) 3 1 1 ≠ 0 :=
  MMSE_denom_pos (fun _ => (1 : ℚ)) (1/2) 3 1 1 (by norm_num) (by norm_num)
    (by norm_num) (by norm_num) (fun z => by norm_num)

/-- C1: refuted by evaluation.  Line 72's `v2.clamp(min=1e-7)` is out of
place and its result is discarded, so `v2` is not clamped: at residual norm
0 with sigma2 = 1, taa = 500, tww = 2, gamma = 1 and dimensions N = 500,
M = 250, `eval_tau2` returns -123/500, far below the floor 1e-7, whereas the
spec-intended clamped estimator stays at or above the floor there. -/
theorem eval_tau2_ignores_clamp :
    eval_tau2_scalar 500 250 (1 : ℚ) 500 2 1 0 < 1 / 10 ^ 7 ∧
    eval_tau2_scalar 500 250 (1 : ℚ) 500 2 1 0 = -123/500 ∧
    1 / 10 ^ 7 ≤ eval_tau2_scalar_clamped 500 250 (1 : ℚ) 500 2 1 0 := by
  refine ⟨?_, ?_, ?_⟩ <;> norm_num [eval_tau2_scalar, eval_tau2_scalar_clamped]

/-- Helper for C8: once the requested number of remaining iterations pushes
the layer index past the end of `gamma`, the loop evaluates to `none`. -/
theorem forwardLoop_out_of_range {n m bsz : ℕ} (cfg : Config K n m bsz)
    (gamma : List K) (y : Matrix (Fin bsz) (Fin m) K) :
    ∀ (itr i : ℕ) (s : Matrix (Fin bsz) (Fin n) K),
      1 ≤ itr → gamma.length < i + itr →
      cfg.forwardLoop gamma y i itr s = none := by
  intro itr
  induction itr with
  | zero => intro i s h1 h2; omega
  | succ k ih =>
    intro i s h1 h2
    cases hg : gamma[i]? with
    | none => simp [Config.forwardLoop, hg]
    | some g =>
      have hi : i < gamma.length := by
        obtain ⟨hlt, -⟩ := List.getElem?_eq_some.mp hg
        exact hlt
      have hk1 : 1 ≤ k := by omega
      have hk2 : gamma.length < (i + 1) + k := by omega
      simp only [Config.forwardLoop, hg]
      exact ih (i + 1) (cfg.step g y s) hk1 hk2

/-- C8: a forward call with `max_itr` greater than the length of `gamma`
(the code's `max_layers`) fails with an out-of-range indexing error on
`gamma`, embedded as `none`: it is neither retried nor clamped to a
successful shallower run. -/
theorem forward_out_of_range {n m bsz : ℕ} (cfg : Config K n m bsz)
    (gamma : List K) (x s0 : Matrix (Fin bsz) (Fin n) K)
    (noise : Matrix (Fin bsz) (Fin m) K) (max_itr : ℕ)
    (h : gamma.length < max_itr) :
    cfg.forward gamma x s0 noise max_itr = none :=
  forwardLoop_out_of_range cfg gamma _ max_itr 0 s0 (by omega) (by omega)

theorem forward_out_of_range_witness :
    demoConfig.forward [1] (fun _ _ => 0) (fun _ _ => 0) (fun _ _ => 0) 2 = none :=
  forward_out_of_range demoConfig [1] (fun _ _ => 0) (fun _ _ => 0) (fun _ _ => 0) 2
    (by norm_num)

/-- C4: with `active_layers = 1` and `gamma` beginning with `γ0`, the forward
pass is exactly one application of the layer recursion of the spec:
`y = measure(x) + noise`, `t = y - s.mm(At)`, `tau2 = eval_tau2(t, gamma[0])`,
`r = s + t.mm(Wt)*gamma[0]`, output `MMSE_shrinkage(r, tau2)`. -/
theorem forward_single_layer {n m bsz : ℕ} (cfg : Config K n m bsz)
    (gamma : List K) (γ0 : K) (rest : List K) (hγ : gamma = γ0 :: rest)
    (x s0 : Matrix (Fin bsz) (Fin n) K) (noise : Matrix (Fin bsz) (Fin m) K) :
    cfg.forward gamma x s0 noise 1 =
      some (
        let y : Matrix (Fin bsz) (Fin m) K := fun i j => matMul x cfg.At i j + noise i j
        let t : Matrix (Fin bsz) (Fin m) K := fun i j => y i j - matMul s0 cfg.At i j
        let tau2 := cfg.eval_tau2 γ0 t
        let r : Matrix (Fin bsz) (Fin n) K := fun i j => s0 i j + matMul t cfg.Wt i j * γ0
        fun i j => MMSE_shrinkage cfg.E cfg.p cfg.alpha2 cfg.xi (r i j) (tau2 i j)) := by
  subst hγ
  simp [Config.forward, Config.forwardLoop, Config.step, Config.eval_tau2]

theorem forward_single_layer_witness :
    demoConfig.forward [1/2] (fun _ _ => 1) (fun _ _ => 0) (fun _ _ => 0) 1 =
      some (
        let y : Matrix (Fin 1) (Fin 1) ℚ :=
          fun i j => matMul (fun _ _ => 1) demoConfig.At i j + (fun _ _ => (0 : ℚ)) i j
        let t : Matrix (Fin 1) (Fin 1) ℚ :=
          fun i j => y i j - matMul (fun _ _ => 0) demoConfig.At i j
        let tau2 := demoConfig.eval_tau2 (1/2) t
        let r : Matrix (Fin 1) (Fin 1) ℚ :=
          fun i j => (fun _ _ => (0 : ℚ)) i j + matMul t demoConfig.Wt i j * (1/2)
        fun i j =>
          MMSE_shrinkage demoConfig.E demoConfig.p demoConfig.alpha2 demoConfig.xi
            (r i j) (tau2 i j)) :=
  forward_single_layer demoConfig [1/2] (1/2) [] rfl (fun _ _ => 1) (fun _ _ => 0)
    (fun _ _ => 0)

/-- C6: the calibration of lines 94-103 computes exactly the spec's
sigma2 = (average total squared energy of the noiseless measurement per
batch item, averaged over the drawn calibration batches) / (M * 10^(SNR/10)),
and xi = alpha2 + sigma2. -/
theorem calibrate_matches_spec {n : ℕ} (alpha2 : K) (mdim bs : ℕ) (snrFactor : K)
    (At : Matrix (Fin n) (Fin mdim) K) (draw : ℕ → Matrix (Fin bs) (Fin n) K) :
    calibrate alpha2 mdim bs snrFactor At draw =
      (spec_sigma2 mdim bs snrFactor At draw,
        alpha2 + spec_sigma2 mdim bs snrFactor At draw) := by
  simp [calibrate, spec_sigma2, div_eq_mul_inv, mul_comm]

/-- C5: every forward call made by the training loop during generation `gen`
(0-indexed), whether a training mini-batch or an end-of-generation accuracy
check, passes depth `gen + 1`, and all generations lie below
`num_generations`. -/
theorem main_forward_depths (call : FwdCall) (hc : call ∈ mainForwardCalls) :
    call.depth = call.gen + 1 ∧ call.gen < num_generations := by
  simp only [mainForwardCalls, List.mem_flatMap, List.mem_append, List.mem_map,
    List.mem_range] at hc
  obtain ⟨gen, hgen, hcall⟩ := hc
  rcases hcall with ⟨i, hi, rfl⟩ | ⟨i, hi, rfl⟩ <;> exact ⟨rfl, hgen⟩

theorem main_forward_depths_witness :
    (⟨0, LoopPhase.train, 0, 1⟩ : FwdCall).depth =
        (⟨0, LoopPhase.train, 0, 1⟩ : FwdCall).gen + 1 ∧
      (⟨0, LoopPhase.train, 0, 1⟩ : FwdCall).gen < num_generations :=
  main_forward_depths ⟨0, LoopPhase.train, 0, 1⟩ (by decide)

/-- C2: the gradient-validity guard of lines 116-120.  If some gradient
coordinate is NaN the optimizer update is skipped and `gamma` is returned
unchanged; if no coordinate is NaN exactly one opaque optimizer step is
applied.  There is no third outcome, so no partial update exists. -/
theorem trainStep_nan_guard (optStep : List EFloat → List EFloat → List EFloat)
    (gamma grads : List EFloat) :
    ((∃ g ∈ grads, isnan g = true) → trainStep optStep gamma grads = gamma) ∧
    ((∀ g ∈ grads, isnan g = false) → trainStep optStep gamma grads = optStep gamma grads) := by
  constructor
  · intro h
    have hany : grads.any isnan = true := List.any_eq_true.mpr h
    simp [trainStep, hany]
  · intro h
    have hany : grads.any isnan = false := by
      rw [List.any_eq_false]
      intro g hg
      simp [h g hg]
    simp [trainStep, hany]

theorem trainStep_nan_guard_witness :
    trainStep (fun _ _ => []) [EFloat.val 1] [EFloat.nan] = [EFloat.val 1] :=
  (trainStep_nan_guard (fun _ _ => []) [EFloat.val 1] [EFloat.nan]).1
    ⟨EFloat.nan, by decide, by decide⟩

theorem efval_add (x y : ℚ) : EFloat.val x + EFloat.val y = EFloat.val (x + y) := rfl

theorem efval_sub (x y : ℚ) : EFloat.val x - EFloat.val y = EFloat.val (x - y) := rfl

theorem efval_mul (x y : ℚ) : EFloat.val x * EFloat.val y = EFloat.val (x * y) := rfl

theorem efval_div (x y : ℚ) (h : y ≠ 0) :
    EFloat.val x / EFloat.val y = EFloat.val (x / y) := by
  simp [HDiv.hDiv, Div.div, efDiv, h]

theorem efval_div_zero (x : ℚ) : EFloat.val x / EFloat.val 0 = EFloat.nan := by
  simp [HDiv.hDiv, Div.div, efDiv]

/-- C3: refuted.  When both Gaussian-density terms have underflowed to zero,
line 68 evaluates to 0/0, which is NaN, not the claimed limiting value 0:
concretely with p = 1/10, alpha2 = 1, xi = 2 at r = 1. -/
theorem MMSE_shrinkage_fp_underflow_counterexample :
    MMSE_shrinkage_fp (.val (1/10)) (.val 1) (.val 2) (.val 1) (.val 0) (.val 0) =
        EFloat.nan ∧
      MMSE_shrinkage_fp (.val (1/10)) (.val 1) (.val 2) (.val 1) (.val 0) (.val 0) ≠
        EFloat.val 0 := by
  have h : MMSE_shrinkage_fp (.val (1/10)) (.val 1) (.val 2) (.val 1) (.val 0) (.val 0) =
      EFloat.nan := by
    norm_num [MMSE_shrinkage_fp, efval_mul, efval_sub, efval_add, efval_div,
      efval_div_zero]
  exact ⟨h, by rw [h]; decide⟩

/-- C3 (amended): for every finite p, alpha2, r and finite nonzero xi, when
both Gaussian-density terms have underflowed to zero, the shrinkage
expression of line 68 evaluates to NaN (its numerator and denominator are
both exactly zero); the NaN is only caught later by the training loop's
gradient guard. -/
theorem MMSE_shrinkage_fp_underflow_nan (p alpha2 xi r : ℚ) (hxi : xi ≠ 0) :
    MMSE_shrinkage_fp (.val p) (.val alpha2) (.val xi) (.val r) (.val 0) (.val 0) =
      EFloat.nan := by
  simp [MMSE_shrinkage_fp, efval_mul, efval_sub, efval_add, efval_div,
    efval_div_zero, hxi, mul_zero, add_zero]

theorem MMSE_shrinkage_fp_underflow_nan_witness :
    MMSE_shrinkage_fp (.val (1/2)) (.val 1) (.val 3) (.val 5) (.val 0) (.val 0) =
      EFloat.nan :=
  MMSE_shrinkage_fp_underflow_nan (1/2) 1 3 5 (by norm_num)

end Claims

end TISTA
